import Mathlib

/-!
Verification of the QuickBuy pitch-deck generator against its design
specification.  The definitions below are a shallow embedding of the
TypeScript sources: JavaScript numbers are modelled as `ℚ` (with
`Option ℚ` where a value can be `null`/`undefined`/`NaN`), strings as
`String`, and the asynchronous chart rasterizer as an abstract function
argument.  Each definition carries the name of the source function it
embeds.
-/

/- The rational-arithmetic primitives are `@[irreducible]` in Batteries,
which blocks `decide` on concrete `ℚ` computations; restore the default
reducibility so concrete evaluations go through. -/
set_option allowUnsafeReducibility true in
attribute [semireducible] Rat.mul Rat.add Rat.sub Rat.div Rat.inv

namespace QuickBuy

/-! ## JavaScript number/string primitives -/

/-- JS truthiness of a possibly-missing number: `undefined`/`null` and `0`
are falsy (`NaN` is modelled as `none`). -/
def truthyNum : Option ℚ → Bool
  | none => false
  | some q => q != 0

/-- JS `x || 0` on a possibly-missing number. -/
def orZero (o : Option ℚ) : ℚ := o.getD 0

/-- JS `x > 0` on a possibly-missing number (`undefined > 0` is `false`). -/
def gtZero : Option ℚ → Bool
  | none => false
  | some q => decide (0 < q)

/-- The decimal digit character for `n % 10`. -/
def digitChar (n : ℕ) : Char := Char.ofNat (48 + n % 10)

/-- Decimal digits, least-significant first, by structural recursion on
a fuel bound (so the kernel can evaluate it). -/
def natDigitsRevAux : ℕ → ℕ → List Char
  | 0, _ => []
  | fuel + 1, n =>
    if n = 0 then [] else digitChar (n % 10) :: natDigitsRevAux fuel (n / 10)

/-- Decimal digits of a natural number, least-significant first
(empty for `0`). -/
def natDigitsRev (n : ℕ) : List Char := natDigitsRevAux n n

/-- Decimal rendering of a natural number, most-significant first. -/
def natChars (n : ℕ) : List Char :=
  if n = 0 then ['0'] else (natDigitsRev n).reverse

/-- Insert a thousands separator after every third digit of a
least-significant-first digit list (JS `toLocaleString` grouping). -/
def group3Rev : List Char → List Char
  | a :: b :: c :: d :: rest => a :: b :: c :: ',' :: group3Rev (d :: rest)
  | l => l

/-- Thousands-grouped decimal rendering of a natural number. -/
def natGroupedChars (n : ℕ) : List Char :=
  if n = 0 then ['0'] else (group3Rev (natDigitsRev n)).reverse

/-- Rounding of `x` to the nearest integer, ties away from zero on the
absolute value (the JS `Intl` default `halfExpand`, applied here to `|x|`). -/
def roundHalfUpNat (x : ℚ) : ℕ := (Rat.floor (|x| + 1/2)).toNat

/-- Fractional digits of JS `toLocaleString`: at most three digits,
trailing zeros stripped, preceded by a decimal point (empty when the
fraction rounds to zero).  `f` is the fraction scaled by 1000, `f < 1000`. -/
def fracChars3 (f : ℕ) : List Char :=
  if f % 10 ≠ 0 then
    ['.', digitChar (f / 100), digitChar (f / 10 % 10), digitChar (f % 10)]
  else if f / 10 % 10 ≠ 0 then
    ['.', digitChar (f / 100), digitChar (f / 10 % 10)]
  else if f / 100 ≠ 0 then
    ['.', digitChar (f / 100)]
  else []

/-- Character-level JS `Number.prototype.toLocaleString()` (default
`en-US` locale: thousands grouping, at most three fraction digits). -/
def jsLocaleChars (v : ℚ) : List Char :=
  let n3 : ℕ := roundHalfUpNat (v * 1000)
  (if v < 0 then ['-'] else []) ++ natGroupedChars (n3 / 1000) ++ fracChars3 (n3 % 1000)

/-- JS `Number.prototype.toLocaleString()` as a string. -/
def jsLocaleString (v : ℚ) : String := String.mk (jsLocaleChars v)

/-- `10 ^ d` as a rational, by structural recursion. -/
def qpow10 : ℕ → ℚ
  | 0 => 1
  | n + 1 => 10 * qpow10 n

/-- JS `Number.prototype.toFixed(d)`: round to `d` decimals picking the
larger candidate on ties, keep the sign of the input. -/
def toFixed (d : ℕ) (x : ℚ) : String :=
  let n : ℤ := Rat.floor (x * qpow10 d + 1/2)
  let m : ℕ := n.natAbs
  let intPart := m / 10 ^ d
  let fracPart := m % 10 ^ d
  let fracDigits := natDigitsRev fracPart
  (if x < 0 then "-" else "")
    ++ String.mk (natChars intPart)
    ++ (if d = 0 then "" else
        String.mk ('.' :: (List.replicate (d - fracDigits.length) '0' ++ fracDigits).reverse))

/-- `safeText` (pptxTemplates): coerce to a non-empty string, mapping the
empty string (and, at other call sites, `null`/`undefined`/`NaN`) to
`"N/A"`. -/
def safeText (s : String) : String := if s = "" then "N/A" else s

/-! ## Formatting layer (`fmpClient.ts`) -/

/-- `formatLargeNumber` (fmpClient): `"N/A"` for `null`/`undefined`/`NaN`,
`T`/`B`/`M` suffixes at two decimals for magnitudes from `1e6` up,
otherwise the plain localized dollar string. -/
def formatLargeNumber : Option ℚ → String
  | none => "N/A"
  | some value =>
    if value ≥ 1000000000000 then "$" ++ toFixed 2 (value / 1000000000000) ++ "T"
    else if value ≥ 1000000000 then "$" ++ toFixed 2 (value / 1000000000) ++ "B"
    else if value ≥ 1000000 then "$" ++ toFixed 2 (value / 1000000) ++ "M"
    else "$" ++ jsLocaleString value

/-- `formatPercentage` (fmpClient). -/
def formatPercentage (v : Option ℚ) (decimals : ℕ := 1) : String :=
  match v with
  | none => "N/A"
  | some value => toFixed decimals value ++ "%"

/-- `formatRatio` (fmpClient). -/
def formatRatio (v : Option ℚ) (decimals : ℕ := 2) : String :=
  match v with
  | none => "N/A"
  | some value => toFixed decimals value ++ "x"

/-! ## Data model (`lib/types.ts`, restricted to the fields the verified
functions read).  A field typed `number` in TypeScript whose value can be
absent in an actual API payload is modelled as `Option ℚ`; the date string
is modelled by its epoch timestamp (`new Date(d).getTime()`), the
`calendarYear` string by the integer it parses to. -/

/-- `FMPIncomeStatement` (fields used by the verified functions). -/
structure Stmt where
  dateMs : ℤ
  calendarYear : ℕ
  revenue : Option ℚ
  grossProfit : Option ℚ
  ebitda : Option ℚ
  operatingIncome : Option ℚ
  netIncome : Option ℚ
  grossProfitRatio : Option ℚ
  netIncomeRatio : Option ℚ
  epsdiluted : Option ℚ
deriving DecidableEq, Repr

/-- An income statement with the given date, year and revenue and every
other field absent. -/
def mkStmt (d : ℤ) (y : ℕ) (r : Option ℚ) : Stmt :=
  ⟨d, y, r, none, none, none, none, none, none, none⟩

/-- `FMPHistoricalPrice` (fields used by `processPriceData`). -/
structure PricePoint where
  dateMs : ℤ
  close : ℚ
deriving DecidableEq, Repr

/-- `FMPCompanyProfile` (fields used by the verified slide builders). -/
structure ProfileT where
  symbol : Option String
  companyName : Option String
  price : Option ℚ
  mktCap : Option ℚ
  beta : Option ℚ
  sector : Option String
  industry : Option String
deriving DecidableEq, Repr

/-- `FMPRatiosTTM` (fields used by the verified slide builders). -/
structure RatiosT where
  peRatioTTM : Option ℚ
  enterpriseValueMultipleTTM : Option ℚ
  grossProfitMarginTTM : Option ℚ
  netProfitMarginTTM : Option ℚ
  returnOnEquityTTM : Option ℚ
  debtEquityRatioTTM : Option ℚ
  dividendYieldTTM : Option ℚ
  priceToSalesRatioTTM : Option ℚ
  priceToBookRatioTTM : Option ℚ
deriving DecidableEq, Repr

/-- `PeerData` (lib/types.ts). -/
structure PeerData where
  symbol : String
  companyName : String
  marketCap : ℚ
  peRatio : Option ℚ
  evToEbitda : Option ℚ
deriving DecidableEq, Repr

/-- `Rating` (lib/types.ts). -/
inductive Rating | Buy | Outperform | Hold | Sell
deriving DecidableEq, Repr

/-- `rating.toUpperCase()` on the four `Rating` literals. -/
def ratingUpper : Rating → String
  | .Buy => "BUY"
  | .Outperform => "OUTPERFORM"
  | .Hold => "HOLD"
  | .Sell => "SELL"

/-- The chart-toggle record `FormData.charts`. -/
structure EnabledCharts where
  marketShare : Bool
  revenueGrowth : Bool
  pricePerformance : Bool
deriving DecidableEq, Repr

/-- `FormData` (lib/types.ts, fields used by the verified builders). -/
structure FormDataT where
  rating : Rating
  timeHorizon : String
  targetPrice : Option ℚ
  charts : EnabledCharts
  themeColor : String
  authorName : Option String
  investmentThesis : String
  valuation : String
  risksAndMitigants : String
deriving DecidableEq, Repr

/-- `ChartType` (chartHelpers.ts). -/
inductive ChartType | pricePerformance | revenueGrowth | marketShare
deriving DecidableEq, Repr, BEq

/-- `ChartExportResult` (chartHelpers.ts). -/
structure ChartExportResult where
  type : ChartType
  dataURL : String
  title : String
deriving DecidableEq, Repr

/-! ## Derived-metrics calculator -/

/-- Ascending-by-date ordering of income statements, as the comparator
`(a, b) => new Date(a.date).getTime() - new Date(b.date).getTime()`
sorts them (JS `Array.prototype.sort` is stable; `insertionSort` with a
total `≤` is the same stable sort). -/
def stmtDateLe (a b : Stmt) : Prop := a.dateMs ≤ b.dateMs

instance : DecidableRel stmtDateLe := fun a b =>
  inferInstanceAs (Decidable (a.dateMs ≤ b.dateMs))
instance : IsTotal Stmt stmtDateLe := ⟨fun a b => Int.le_total a.dateMs b.dateMs⟩
instance : IsTrans Stmt stmtDateLe := ⟨fun _ _ _ h h' => le_trans h h'⟩

/-- The `[...incomeStatements].sort(by date ascending)` step of
`calculateRevenueGrowth`. -/
def sortStatementsByDate (l : List Stmt) : List Stmt :=
  List.insertionSort stmtDateLe l

/-- One `{ year, growth }` record pushed by `calculateRevenueGrowth`. -/
structure GrowthEntry where
  year : ℕ
  growth : Option ℚ
deriving DecidableEq, Repr

/-- `Math.round(x * 10) / 10` (JS `Math.round` is floor of `x + 1/2`). -/
def roundTo1 (x : ℚ) : ℚ := (Rat.floor (x * 10 + 1/2) : ℚ) / 10

/-- The consecutive-pair loop of `calculateRevenueGrowth`: a record is
pushed only when the prior year's revenue is positive; a missing current
revenue propagates as `NaN` (modelled `none`). -/
def growthPairs : List Stmt → List GrowthEntry
  | a :: b :: rest =>
    (match a.revenue with
     | some p =>
       if 0 < p then
         [⟨b.calendarYear, b.revenue.map (fun c => roundTo1 ((c - p) / p * 100))⟩]
       else []
     | none => []) ++ growthPairs (b :: rest)
  | _ => []

/-- `calculateRevenueGrowth` (fmpClient): sort ascending by date, then
emit rounded year-over-year growth for each consecutive pair with
positive prior revenue. -/
def calculateRevenueGrowth (incomeStatements : List Stmt) : List GrowthEntry :=
  growthPairs (sortStatementsByDate incomeStatements)

/-- Ascending-by-`calendarYear` ordering used by `processRevenueData`. -/
def stmtYearLe (a b : Stmt) : Prop := a.calendarYear ≤ b.calendarYear

instance : DecidableRel stmtYearLe := fun a b =>
  inferInstanceAs (Decidable (a.calendarYear ≤ b.calendarYear))
instance : IsTotal Stmt stmtYearLe := ⟨fun a b => Nat.le_total a.calendarYear b.calendarYear⟩
instance : IsTrans Stmt stmtYearLe := ⟨fun _ _ _ h h' => le_trans h h'⟩

/-- `RevenueChartData` (chartHelpers.ts). -/
structure RevenueChartData where
  labels : List ℕ
  revenues : List (Option ℚ)
  growthRates : List (Option ℚ)
deriving DecidableEq, Repr

/-- The consecutive-pair loop of `processRevenueData`: one entry per
pair, `null` when the prior revenue is not positive. -/
def pairGrowthRates : List Stmt → List (Option ℚ)
  | a :: b :: rest =>
    (match a.revenue with
     | some p =>
       if 0 < p then
         match b.revenue with
         | some c => some ((c - p) / p * 100)
         | none => none
       else none
     | none => none) :: pairGrowthRates (b :: rest)
  | _ => []

/-- `processRevenueData` (chartHelpers): sort ascending by calendar year,
revenues in billions, growth rates with an explicit `null` for the first
year (unrounded values). -/
def processRevenueData (incomeStatements : List Stmt) : RevenueChartData :=
  let sorted := List.insertionSort stmtYearLe incomeStatements
  { labels := sorted.map (·.calendarYear)
    revenues := sorted.map (fun s => s.revenue.map (· / 1000000000))
    growthRates := none :: pairGrowthRates sorted }

/-- Ascending-by-date ordering of price points. -/
def priceDateLe (a b : PricePoint) : Prop := a.dateMs ≤ b.dateMs

instance : DecidableRel priceDateLe := fun a b =>
  inferInstanceAs (Decidable (a.dateMs ≤ b.dateMs))
instance : IsTotal PricePoint priceDateLe := ⟨fun a b => Int.le_total a.dateMs b.dateMs⟩
instance : IsTrans PricePoint priceDateLe := ⟨fun _ _ _ h h' => le_trans h h'⟩

/-- The `[...historicalPrices].sort(by date ascending)` step of
`processPriceData`. -/
def sortPricesByDate (l : List PricePoint) : List PricePoint :=
  List.insertionSort priceDateLe l

/-- `PriceChartData` (chartHelpers.ts); labels are kept as the epoch
timestamps that `toLocaleDateString` would format. -/
structure PriceChartData where
  labels : List ℤ
  prices : List ℚ
  normalizedPrices : List ℚ
deriving DecidableEq, Repr

/-- `processPriceData` (chartHelpers): sort ascending by date, sample by
fixed stride, normalize to 100 at the first retained point
(`sampled[0]?.close || 1` falls back to 1 on an empty list or a zero
close).  No deduplication is performed. -/
def processPriceData (historicalPrices : List PricePoint) (maxPoints : ℕ := 250) :
    PriceChartData :=
  let sorted := sortPricesByDate historicalPrices
  let step := max 1 (sorted.length / maxPoints)
  let sampled := (sorted.enum.filter (fun ie => ie.1 % step == 0)).map Prod.snd
  let startPrice := match sampled.head? with
    | some p => if p.close = 0 then 1 else p.close
    | none => 1
  { labels := sampled.map (·.dateMs)
    prices := sampled.map (·.close)
    normalizedPrices := sampled.map (fun p => p.close / startPrice * 100) }

/-- One `{ name, revenue }` entry of `calculateMarketShare`. -/
structure MSEntry where
  name : String
  revenue : ℚ
deriving DecidableEq, Repr

/-- Descending-by-revenue ordering (`(a, b) => b.revenue - a.revenue`). -/
def msRevenueGe (a b : MSEntry) : Prop := b.revenue ≤ a.revenue

instance : DecidableRel msRevenueGe := fun a b =>
  inferInstanceAs (Decidable (b.revenue ≤ a.revenue))
instance : IsTotal MSEntry msRevenueGe := ⟨fun a b => le_total b.revenue a.revenue⟩
instance : IsTrans MSEntry msRevenueGe := ⟨fun _ _ _ h h' => le_trans h' h⟩

/-- `MarketShareData` (chartHelpers.ts). -/
structure MarketShareData where
  labels : List String
  values : List ℚ
  percentages : List ℚ
deriving DecidableEq, Repr

/-- The peer entries `calculateMarketShare` keeps: peers whose revenue is
present in the map and positive (`if (revenue && revenue > 0)`). -/
def keptPeers (peersData : List PeerData) (peerRevenues : String → Option ℚ) :
    List MSEntry :=
  peersData.filterMap (fun peer =>
    match peerRevenues peer.symbol with
    | some revenue => if 0 < revenue then some ⟨peer.companyName, revenue⟩ else none
    | none => none)

/-- `name.length > 15 ? name.substring(0, 15) + '...' : name`. -/
def truncateLabel (name : String) : String :=
  if name.length > 15 then (name.take 15) ++ "..." else name

/-- `calculateMarketShare` (chartHelpers): subject plus peers with known
positive revenue, sorted descending by revenue, top 6, each value as a
percentage of the top-6 total.  Division by a zero total (JS `Infinity`/
`NaN` percentages) is modelled by `ℚ`'s `x / 0 = 0`. -/
def calculateMarketShare (companyRevenue : ℚ) (companyName : String)
    (peersData : List PeerData) (peerRevenues : String → Option ℚ) :
    MarketShareData :=
  let companies : List MSEntry :=
    ⟨companyName, companyRevenue⟩ :: keptPeers peersData peerRevenues
  let sorted := (List.insertionSort msRevenueGe companies).take 6
  let total := (sorted.map (·.revenue)).sum
  { labels := sorted.map (fun c => truncateLabel c.name)
    values := sorted.map (·.revenue)
    percentages := sorted.map (fun c => c.revenue / total * 100) }

/-! ## `generateAllCharts` (chartHelpers.ts)

The Chart.js rasterization boundary (`renderChartToDataURL`) is modelled
by an abstract function `render : ChartType → String` producing the
PNG data URL; the chart-specification factories are consumed only by the
rasterizer and contribute nothing observable beyond it. -/

/-- `priceData && priceData.prices.length > 0`. -/
def priceHasPoints : Option PriceChartData → Bool
  | none => false
  | some pd => pd.prices.length > 0

/-- `revenueData && revenueData.revenues.length > 0`. -/
def revenueHasRows : Option RevenueChartData → Bool
  | none => false
  | some rd => rd.revenues.length > 0

/-- `marketShareData && marketShareData.values.length > 1`. -/
def marketShareHasSlices : Option MarketShareData → Bool
  | none => false
  | some md => md.values.length > 1

/-- `generateAllCharts` (chartHelpers): one export per chart that is both
enabled and has data, pushed in the order price, revenue, market share. -/
def generateAllCharts (render : ChartType → String)
    (priceData : Option PriceChartData) (revenueData : Option RevenueChartData)
    (marketShareData : Option MarketShareData)
    (enabledCharts : EnabledCharts) : List ChartExportResult :=
  (if enabledCharts.pricePerformance && priceHasPoints priceData then
     [⟨.pricePerformance, render .pricePerformance, "Stock Price Performance"⟩]
   else [])
  ++ (if enabledCharts.revenueGrowth && revenueHasRows revenueData then
     [⟨.revenueGrowth, render .revenueGrowth, "Revenue & Growth"⟩]
   else [])
  ++ (if enabledCharts.marketShare && marketShareHasSlices marketShareData then
     [⟨.marketShare, render .marketShare, "Market Share"⟩]
   else [])

/-! ## Deck builder (`PitchDeckBuilder.build`, pptxTemplates) -/

/-- The thirteen named fixed slides of `build()`'s `slides` array. -/
inductive SlideName
  | cover | toc | investmentSummary | companyOverview | industryOverview
  | keyMetrics | financialSummary | peersComps | growthDrivers
  | investmentThesis | valuation | risksAndMitigants | appendix
deriving DecidableEq, Repr

/-- The `name` string of each entry of the `slides` array. -/
def slideNameStr : SlideName → String
  | .cover => "Cover"
  | .toc => "TOC"
  | .investmentSummary => "InvestmentSummary"
  | .companyOverview => "CompanyOverview"
  | .industryOverview => "IndustryOverview"
  | .keyMetrics => "KeyMetrics"
  | .financialSummary => "FinancialSummary"
  | .peersComps => "PeersComps"
  | .growthDrivers => "GrowthDrivers"
  | .investmentThesis => "InvestmentThesis"
  | .valuation => "Valuation"
  | .risksAndMitigants => "RisksAndMitigants"
  | .appendix => "Appendix"

/-- The order of the `slides` array in `build()`: every named slide
builder appends exactly one slide to the presentation. -/
def slideOrder : List SlideName :=
  [.cover, .toc, .investmentSummary, .companyOverview, .industryOverview,
   .keyMetrics, .financialSummary, .peersComps, .growthDrivers,
   .investmentThesis, .valuation, .risksAndMitigants, .appendix]

/-- One slide of the produced deck: a named fixed slide or a chart slide. -/
inductive DeckSlide
  | fixed (name : SlideName)
  | chart (c : ChartExportResult)
deriving DecidableEq, Repr

/-- The chart-slide phase of `build()`: `find` the revenue chart, then the
price chart, then the market-share chart in the `charts` array, adding a
slide for each one found — a fixed relative order independent of the
order of `charts`. -/
def chartSelection (charts : List ChartExportResult) : List ChartExportResult :=
  (match charts.find? (fun c => c.type == ChartType.revenueGrowth) with
   | some c => [c]
   | none => [])
  ++ (match charts.find? (fun c => c.type == ChartType.pricePerformance) with
   | some c => [c]
   | none => [])
  ++ (match charts.find? (fun c => c.type == ChartType.marketShare) with
   | some c => [c]
   | none => [])

/-- The slide sequence `build()` emits when no step throws: the thirteen
fixed slides in order, then the selected chart slides. -/
def buildSlides (charts : List ChartExportResult) : List DeckSlide :=
  slideOrder.map DeckSlide.fixed ++ (chartSelection charts).map DeckSlide.chart

/-- Error message of the per-slide `catch` in `build()`. -/
def slideFailMsg (n : SlideName) (msg : String) : String :=
  "Failed on slide \"" ++ slideNameStr n ++ "\": " ++ msg

/-- Error message of the chart-phase `catch` in `build()` (it does not
mention which chart slide failed). -/
def chartFailMsg (msg : String) : String :=
  "Failed on chart slide: " ++ msg

/-- Error message of the serialization `catch` in `build()`. -/
def writeFailMsg (msg : String) : String :=
  "Failed generating PowerPoint file: " ++ msg

/-- The `for (const slide of slides)` loop of `build()` with each named
builder's outcome abstracted (`some msg` = the builder threw `msg`):
the first failure aborts the build with a wrapped error naming the slide. -/
def runFixedSlides (slideOutcome : SlideName → Option String) :
    List SlideName → Except String (List DeckSlide)
  | [] => .ok []
  | n :: rest =>
    match slideOutcome n with
    | some msg => .error (slideFailMsg n msg)
    | none => (runFixedSlides slideOutcome rest).map (fun l => .fixed n :: l)

/-- The chart-slide phase of `build()` with each `addChartSlide` outcome
abstracted: all three additions share one `catch`, so a failure is
wrapped without the failing chart's identity. -/
def runChartSlides (chartOutcome : ChartType → Option String) :
    List ChartExportResult → Except String (List DeckSlide)
  | [] => .ok []
  | c :: rest =>
    match chartOutcome c.type with
    | some msg => .error (chartFailMsg msg)
    | none => (runChartSlides chartOutcome rest).map (fun l => .chart c :: l)

/-- `PitchDeckBuilder.build` with its three failure points abstracted:
per-named-slide outcomes, per-chart-slide outcomes and the
`pptx.write` outcome.  Success returns the full slide sequence; any
failure returns the wrapped error and no deck. -/
def buildE (slideOutcome : SlideName → Option String)
    (chartOutcome : ChartType → Option String)
    (charts : List ChartExportResult)
    (writeOutcome : Option String) : Except String (List DeckSlide) := do
  let fixedPart ← runFixedSlides slideOutcome slideOrder
  let chartPart ← runChartSlides chartOutcome (chartSelection charts)
  match writeOutcome with
  | some msg => .error (writeFailMsg msg)
  | none => .ok (fixedPart ++ chartPart)

/-! ## Slide cells (`addInvestmentSummary`, `addKeyMetrics`,
`addFinancialSummary`) -/

/-- `profile?.companyName || fallback` style access. -/
def profileNameOr (profile : Option ProfileT) (fallback : String) : String :=
  match profile with
  | some p => p.companyName.getD fallback
  | none => fallback

/-- Investment-summary operating metrics, `Revenue (LTM)` cell:
`latestIncome ? formatLargeNumber(latestIncome.revenue) : 'N/A'`. -/
def invSummaryRevenueCell (latestIncome : Option Stmt) : String :=
  safeText (match latestIncome with
    | some s => formatLargeNumber s.revenue
    | none => "N/A")

/-- Investment-summary operating metrics, `EBITDA Margin` cell:
`latestIncome && latestIncome.revenue > 0 && latestIncome.ebitda
 ? ((ebitda / revenue) * 100).toFixed(1) + '%' : 'N/A'`. -/
def invSummaryEbitdaMarginCell (latestIncome : Option Stmt) : String :=
  safeText (match latestIncome with
    | none => "N/A"
    | some s =>
      match s.revenue, s.ebitda with
      | some rev, some eb =>
        if 0 < rev ∧ eb ≠ 0 then toFixed 1 (eb / rev * 100) ++ "%" else "N/A"
      | _, _ => "N/A")

/-- Investment-summary operating metrics, `Gross Margin` cell:
`ratios?.grossProfitMarginTTM ? (… * 100).toFixed(1) + '%' : 'N/A'`. -/
def invSummaryGrossMarginCell (ratios : Option RatiosT) : String :=
  safeText (match ratios with
    | some r =>
      match r.grossProfitMarginTTM with
      | some m => if m ≠ 0 then toFixed 1 (m * 100) ++ "%" else "N/A"
      | none => "N/A"
    | none => "N/A")

/-- Key-metrics table, `Revenue` cell:
`safeText(formatLargeNumber(s.revenue || 0))`. -/
def kmRevenueCell (s : Stmt) : String :=
  safeText (formatLargeNumber (some (orZero s.revenue)))

/-- Key-metrics table, `EBITDA` cell:
`safeText(formatLargeNumber(s.ebitda || 0))`. -/
def kmEbitdaCell (s : Stmt) : String :=
  safeText (formatLargeNumber (some (orZero s.ebitda)))

/-- Key-metrics table, `Gross Margin` cell:
`safeText(formatPercentage((s.grossProfitRatio || 0) * 100))`. -/
def kmGrossMarginCell (s : Stmt) : String :=
  safeText (formatPercentage (some (orZero s.grossProfitRatio * 100)))

/-- Key-metrics table, `EPS (Diluted)` cell:
`safeText(`$${(s.epsdiluted ?? 0).toFixed(2)}`)`. -/
def kmEpsCell (s : Stmt) : String :=
  safeText ("$" ++ toFixed 2 (orZero s.epsdiluted))

/-- Financial-summary table, `Revenue` cell:
`safeText(((stmt.revenue || 0) / 1e6).toFixed(0))`. -/
def fsRevenueCell (s : Stmt) : String :=
  safeText (toFixed 0 (orZero s.revenue / 1000000))

/-- Financial-summary table, `EBITDA` cell:
`safeText(((stmt.ebitda || 0) / 1e6).toFixed(0))`. -/
def fsEbitdaCell (s : Stmt) : String :=
  safeText (toFixed 0 (orZero s.ebitda / 1000000))

/-! ## User-editable slides (`addInvestmentThesis`, `addValuation`,
`addRisksAndMitigants`), modelled by the texts they place on the slide. -/

/-- The investment-thesis slide's observable content. -/
structure ThesisSlide where
  badge : String
  coreThesis : String
  sectionTitles : List String
  notes : String
deriving DecidableEq, Repr

/-- `addInvestmentThesis` (pptxTemplates): the core-thesis box shows the
first line of the user's thesis when non-empty, otherwise a placeholder
built from the rating and company name; the `ACTION REQUIRED` badge and
the speaker note are added unconditionally. -/
def addInvestmentThesis (profile : Option ProfileT) (formData : FormDataT) :
    ThesisSlide :=
  { badge := "ACTION REQUIRED"
    coreThesis :=
      if formData.investmentThesis ≠ "" then
        (formData.investmentThesis.splitOn "\n").headD ""
      else
        "We recommend " ++ ratingUpper formData.rating ++ " on "
          ++ profileNameOr profile "the company" ++ " based on [YOUR THESIS HERE]"
    sectionTitles := ["KEY CATALYSTS", "SUPPORTING EVIDENCE", "WHY NOW?"]
    notes := "USER ACTION REQUIRED: Replace the placeholder text with your investment thesis. Include your core thesis, catalysts, and supporting evidence." }

/-- The valuation slide's observable content. -/
structure ValuationSlide where
  badge : String
  priceBoxes : List (String × String)
  methodTitles : List String
  compMethodItems : List String
  notes : String
deriving DecidableEq, Repr

/-- `addValuation` (pptxTemplates): price boxes and methodology columns
built from the profile, ratios, target price and time horizon; the
`FormData.valuation` free-text field is never read; the `ACTION REQUIRED`
badge and the speaker note are added unconditionally. -/
def addValuation (profile : Option ProfileT) (ratios : Option RatiosT)
    (formData : FormDataT) : ValuationSlide :=
  let currentPrice : ℚ := match profile with
    | some p => orZero p.price
    | none => 0
  let targetPrice : ℚ := orZero formData.targetPrice
  let upside : ℚ :=
    if 0 < currentPrice ∧ 0 < targetPrice then
      (targetPrice - currentPrice) / currentPrice * 100
    else 0
  { badge := "ACTION REQUIRED"
    priceBoxes :=
      [("CURRENT PRICE", if 0 < currentPrice then "$" ++ toFixed 2 currentPrice else "N/A"),
       ("TARGET PRICE", if targetPrice ≠ 0 then "$" ++ toFixed 2 targetPrice else "TBD"),
       ("UPSIDE/DOWNSIDE",
        if upside ≠ 0 then
          (if 0 ≤ upside then "+" else "") ++ toFixed 1 upside ++ "%"
        else "TBD"),
       ("TIME HORIZON", formData.timeHorizon ++ " Months")]
    methodTitles := ["DCF ANALYSIS", "COMPARABLE COMPANIES", "PRECEDENT TRANSACTIONS"]
    compMethodItems :=
      ["P/E: " ++ (match ratios with
        | some r => match r.peRatioTTM with
          | some v => if v ≠ 0 then formatRatio (some v) 1 else "[X]x"
          | none => "[X]x"
        | none => "[X]x"),
       "EV/EBITDA: " ++ (match ratios with
        | some r => match r.enterpriseValueMultipleTTM with
          | some v => if v ≠ 0 then formatRatio (some v) 1 else "[X]x"
          | none => "[X]x"
        | none => "[X]x"),
       "Peer Median: [X]x",
       "Implied Range: $[XX]-$[XX]"]
    notes := "USER ACTION REQUIRED: Replace placeholder text with your valuation analysis. Include DCF assumptions, comparable multiples, and target price derivation." }

/-- The risks-and-mitigants slide's observable content. -/
structure RisksSlide where
  badge : String
  riskCategories : List String
  notes : String
deriving DecidableEq, Repr

/-- `addRisksAndMitigants` (pptxTemplates): a fixed table of placeholder
risk rows; the `FormData.risksAndMitigants` free-text field is never
read; the `ACTION REQUIRED` badge and the note are added unconditionally. -/
def addRisksAndMitigants (_formData : FormDataT) : RisksSlide :=
  { badge := "ACTION REQUIRED"
    riskCategories :=
      ["MARKET / MACRO", "COMPETITIVE", "EXECUTION", "REGULATORY", "VALUATION"]
    notes := "USER ACTION REQUIRED: Replace placeholder text with specific risks to your investment thesis and how they can be mitigated." }

/-- Replace the `valuation` free-text field of a form. -/
def setValuation (fd : FormDataT) (v : String) : FormDataT :=
  { fd with valuation := v }

/-- Replace the `risksAndMitigants` free-text field of a form. -/
def setRisks (fd : FormDataT) (v : String) : FormDataT :=
  { fd with risksAndMitigants := v }

/-- Replace the `investmentThesis` free-text field of a form. -/
def setThesis (fd : FormDataT) (v : String) : FormDataT :=
  { fd with investmentThesis := v }

/-! ## Aggregated company-data endpoint (`pages/api/fmp/company-data.ts`
with the Yahoo fallback) and the `fmpRequest` error classification. -/

/-- `APIError.code` values produced by `fmpRequest` plus the `NOT_FOUND`
thrown by `fetchAllCompanyData`. -/
inductive ApiCode
  | AUTH_ERROR | RATE_LIMIT | NETWORK_ERROR | TIMEOUT
  | NOT_FOUND | FORBIDDEN | API_ERROR
deriving DecidableEq, Repr

/-- The ways an axios request can fail in `fmpRequest`'s `catch`. -/
inductive HttpFailure
  | status (code : ℕ)
  | timeoutAborted
  | networkFailure
deriving DecidableEq, Repr

/-- The error classification of `fmpRequest` (fmpClient): `401 → AUTH`,
`403 → empty data when allowed, else FORBIDDEN`, `429 → RATE_LIMIT`,
other statuses → `API_ERROR`, `ECONNABORTED → TIMEOUT`, anything else →
`NETWORK_ERROR`.  `.ok ()` models the recovered empty-data return. -/
def fmpRequestFailure (allowEmpty : Bool) : HttpFailure → Except ApiCode Unit
  | .status 401 => .error .AUTH_ERROR
  | .status 403 => if allowEmpty then .ok () else .error .FORBIDDEN
  | .status 429 => .error .RATE_LIMIT
  | .status _ => .error .API_ERROR
  | .timeoutAborted => .error .TIMEOUT
  | .networkFailure => .error .NETWORK_ERROR

/-- The aggregated `CompanyData` bundle as the handler observes it. -/
structure CompanyBundle where
  profile : Option ProfileT
  incomeStatements : List Stmt
deriving DecidableEq, Repr

/-- Outcome of `fetchAllCompanyData` as awaited by the handler. -/
inductive FetchOutcome
  | success (d : CompanyBundle)
  | failure (code : ApiCode)
deriving DecidableEq, Repr

/-- The HTTP response of the aggregated endpoint. -/
inductive HandlerResponse
  | okFmp (d : CompanyBundle)
  | okYahoo (d : CompanyBundle)
  | errorResp (status : ℕ) (name : String)
deriving DecidableEq, Repr

/-- A handler run: the response together with whether the Yahoo fallback
was attempted. -/
structure HandlerRun where
  response : HandlerResponse
  triedYahoo : Bool
deriving DecidableEq, Repr

/-- The Yahoo-fallback tail of the handler: success with a profile is
accepted as-is, success without one is 404, a throw is 500. -/
def yahooTail : Except String CompanyBundle → HandlerRun
  | .ok d =>
    if d.profile.isSome then ⟨.okYahoo d, true⟩
    else ⟨.errorResp 404 "Company not found", true⟩
  | .error _ => ⟨.errorResp 500 "Failed to fetch company data", true⟩

/-- The aggregated-endpoint `handler` (company-data.ts with the Yahoo
fallback): FMP is tried first when an API key is configured; an
`AUTH_ERROR` returns 401 immediately, every other FMP failure — including
`NOT_FOUND` ("Still try Yahoo as company might exist there") — and a
missing API key fall through to Yahoo. -/
def companyDataHandler (apiKeyConfigured : Bool) (fmp : FetchOutcome)
    (yahoo : Except String CompanyBundle) : HandlerRun :=
  if apiKeyConfigured then
    match fmp with
    | .success d => if d.profile.isSome then ⟨.okFmp d, false⟩ else yahooTail yahoo
    | .failure c =>
      if c = .AUTH_ERROR then ⟨.errorResp 401 "Invalid API key", false⟩
      else yahooTail yahoo
  else yahooTail yahoo

/-- A concrete profile for witnesses. -/
def sampleProfile : ProfileT :=
  ⟨some "AAPL", some "Apple Inc.", some 190, some 3000000000000,
   some (12/10), some "Technology", some "Consumer Electronics"⟩

/-- The first named slide whose builder throws, in loop order. -/
def firstFailingSlide (so : SlideName → Option String) :
    List SlideName → Option (SlideName × String)
  | [] => none
  | n :: rest =>
    match so n with
    | some msg => some (n, msg)
    | none => firstFailingSlide so rest

/-- A concrete form for witnesses. -/
def sampleForm : FormDataT :=
  { rating := .Buy, timeHorizon := "12", targetPrice := none,
    charts := ⟨true, true, true⟩, themeColor := "#2563eb", authorName := none,
    investmentThesis := "", valuation := "", risksAndMitigants := "" }

/-- Whether a string's final character is a decimal digit. -/
def lastCharDigit (s : String) : Bool :=
  match s.data.getLast? with
  | some c => c.isDigit
  | none => false

/-! ## Spec-side comparison definitions -/

/-- Modelled from the spec: the canonical order asserted by the claim,
with the chart slides "sitting between the financial-summary slide and
the peer-comparison slide".  Stated only to be compared against
`buildSlides`. -/
def claimedCanonicalOrder (charts : List ChartExportResult) : List DeckSlide :=
  ([.cover, .toc, .investmentSummary, .companyOverview, .industryOverview,
    .keyMetrics, .financialSummary] : List SlideName).map DeckSlide.fixed
  ++ (chartSelection charts).map DeckSlide.chart
  ++ ([.peersComps, .growthDrivers, .investmentThesis, .valuation,
      .risksAndMitigants, .appendix] : List SlideName).map DeckSlide.fixed

/-- Modelled from the spec: "must be deduplicated and sorted ascending by
date before normalization […] or sampling" — `processPriceData` with the
deduplication step the claim ascribes to it.  Stated only to be compared
against `processPriceData`. -/
def processPriceDataDedupSpec (historicalPrices : List PricePoint)
    (maxPoints : ℕ := 250) : PriceChartData :=
  processPriceData historicalPrices.dedup maxPoints

/-- A full chart list: all three charts produced, in the order
`generateAllCharts` pushes them. -/
def fullCharts : List ChartExportResult :=
  [⟨.pricePerformance, "p", "Stock Price Performance"⟩,
   ⟨.revenueGrowth, "r", "Revenue & Growth"⟩,
   ⟨.marketShare, "m", "Market Share"⟩]

/-! ## Claim C1 — slide emission order -/

/-- C1 (counterexample): with all three charts produced, the deck
`build()` emits is *not* in the claimed canonical order with the chart
slides between the financial-summary and peer-comparison slides — the
chart slides are appended after the appendix. -/
theorem build_not_claimed_order :
    buildSlides fullCharts ≠ claimedCanonicalOrder fullCharts := by
  decide

/-- C1 (amended): `build()` emits the thirteen fixed slides in the order
cover, TOC, investment summary, company overview, industry overview, key
metrics, financial summary, peer comparison, growth drivers, investment
thesis, valuation, risks & mitigants, appendix, and then appends the
chart slides at the end of the deck in the fixed relative order revenue,
price, market share; with all three charts present the deck has exactly
16 slides. -/
theorem build_slide_order (charts : List ChartExportResult)
    (r p m : ChartExportResult)
    (hr : charts.find? (fun c => c.type == ChartType.revenueGrowth) = some r)
    (hp : charts.find? (fun c => c.type == ChartType.pricePerformance) = some p)
    (hm : charts.find? (fun c => c.type == ChartType.marketShare) = some m) :
    buildSlides charts =
      slideOrder.map DeckSlide.fixed
        ++ [DeckSlide.chart r, DeckSlide.chart p, DeckSlide.chart m]
    ∧ (buildSlides charts).length = 16 := by
  have h : buildSlides charts =
      slideOrder.map DeckSlide.fixed
        ++ [DeckSlide.chart r, DeckSlide.chart p, DeckSlide.chart m] := by
    unfold buildSlides chartSelection
    rw [hr, hp, hm]
    simp
  refine ⟨h, ?_⟩
  rw [h]
  simp [slideOrder]

/-- C1 witness: the amended order theorem applied to the full chart
list. -/
theorem build_slide_order_witness :
    (fullCharts.find? (fun c => c.type == ChartType.revenueGrowth) =
        some ⟨.revenueGrowth, "r", "Revenue & Growth"⟩)
    ∧ (buildSlides fullCharts =
        slideOrder.map DeckSlide.fixed
          ++ [DeckSlide.chart ⟨.revenueGrowth, "r", "Revenue & Growth"⟩,
              DeckSlide.chart ⟨.pricePerformance, "p", "Stock Price Performance"⟩,
              DeckSlide.chart ⟨.marketShare, "m", "Market Share"⟩]
      ∧ (buildSlides fullCharts).length = 16) :=
  ⟨by decide,
   build_slide_order fullCharts _ _ _ (by decide) (by decide) (by decide)⟩

/-! ## Claim C5 — chart-slide selection -/

/-- C5: the chart slides appended to the deck are exactly those both
enabled by the user and produced by `generateAllCharts` (the rasterizer
being the abstract `render`), in the fixed relative order revenue chart,
price chart, market-share chart regardless of the order the exports were
produced in; and the market-share data has more than one slice exactly
when at least one peer with known positive revenue joins the subject
company. -/
theorem chart_slides_enabled_and_produced :
    (∀ (render : ChartType → String) (pd : Option PriceChartData)
       (rd : Option RevenueChartData) (md : Option MarketShareData)
       (e : EnabledCharts),
      buildSlides (generateAllCharts render pd rd md e) =
        slideOrder.map DeckSlide.fixed
        ++ (if e.revenueGrowth && revenueHasRows rd then
              [DeckSlide.chart ⟨.revenueGrowth, render .revenueGrowth, "Revenue & Growth"⟩]
            else [])
        ++ (if e.pricePerformance && priceHasPoints pd then
              [DeckSlide.chart ⟨.pricePerformance, render .pricePerformance,
                "Stock Price Performance"⟩]
            else [])
        ++ (if e.marketShare && marketShareHasSlices md then
              [DeckSlide.chart ⟨.marketShare, render .marketShare, "Market Share"⟩]
            else []))
    ∧ (∀ (cr : ℚ) (cn : String) (peers : List PeerData)
        (prevs : String → Option ℚ),
      marketShareHasSlices (some (calculateMarketShare cr cn peers prevs)) = true
        ↔ keptPeers peers prevs ≠ []) := by
  constructor
  · intro render pd rd md e
    unfold buildSlides generateAllCharts chartSelection
    by_cases h1 : e.pricePerformance && priceHasPoints pd <;>
      by_cases h2 : e.revenueGrowth && revenueHasRows rd <;>
        by_cases h3 : e.marketShare && marketShareHasSlices md <;>
          simp only [h1, h2, h3, if_true, if_false, Bool.not_eq_true,
            if_neg, if_pos, List.nil_append, List.append_nil, List.map_nil,
            List.map_cons, List.map_append] <;>
          rfl
  · intro cr cn peers prevs
    have hlen : (calculateMarketShare cr cn peers prevs).values.length
        = min 6 (1 + (keptPeers peers prevs).length) := by
      show ((List.insertionSort msRevenueGe
          (⟨cn, cr⟩ :: keptPeers peers prevs)).take 6 |>.map (·.revenue)).length = _
      rw [List.length_map, List.length_take, List.length_insertionSort,
        List.length_cons]
      omega
    constructor
    · intro h
      have h' : 1 < (calculateMarketShare cr cn peers prevs).values.length := by
        simpa [marketShareHasSlices] using h
      rw [hlen] at h'
      intro hnil
      rw [hnil] at h'
      simp at h'
    · intro h
      have hpos : 0 < (keptPeers peers prevs).length := List.length_pos.mpr h
      have h1 : 1 < (calculateMarketShare cr cn peers prevs).values.length := by
        rw [hlen]; omega
      simpa [marketShareHasSlices] using h1

/-! ## Claim C2 — rendering of missing numeric values -/

/-- C2 (counterexample): in the key-metrics table a missing revenue does
*not* render as `"N/A"` — the `|| 0` fallback renders it as `"$0"`, and a
missing gross-profit ratio as `"0.0%"`. -/
theorem key_metrics_missing_renders_zero :
    kmRevenueCell (mkStmt 0 2020 none) = "$0"
    ∧ kmGrossMarginCell (mkStmt 0 2020 none) = "0.0%"
    ∧ kmRevenueCell (mkStmt 0 2020 none) ≠ "N/A" := by
  refine ⟨by decide, by decide, by decide⟩

/-- C2 (amended): missing numeric values never render blank and never
throw, but the treatment differs by slide — the investment-summary cells
guard and render `"N/A"` (EBITDA margin and revenue in particular),
while the key-metrics and financial-summary table cells substitute `0`
before formatting, rendering `"$0"`, `"0.0%"`, `"$0.00"` and `"0"`
respectively. -/
theorem missing_value_rendering (s : Stmt)
    (hr : s.revenue = none) (he : s.ebitda = none)
    (hg : s.grossProfitRatio = none) (hd : s.epsdiluted = none) :
    invSummaryEbitdaMarginCell (some s) = "N/A"
    ∧ invSummaryRevenueCell (some s) = "N/A"
    ∧ kmRevenueCell s = "$0"
    ∧ kmEbitdaCell s = "$0"
    ∧ kmGrossMarginCell s = "0.0%"
    ∧ kmEpsCell s = "$0.00"
    ∧ fsRevenueCell s = "0"
    ∧ fsEbitdaCell s = "0" := by
  refine ⟨?_, ?_, ?_, ?_, ?_, ?_, ?_, ?_⟩
  · simp only [invSummaryEbitdaMarginCell, hr, he]; decide
  · simp only [invSummaryRevenueCell, hr]; decide
  · simp only [kmRevenueCell, hr]; decide
  · simp only [kmEbitdaCell, he]; decide
  · simp only [kmGrossMarginCell, hg]; decide
  · simp only [kmEpsCell, hd]; decide
  · simp only [fsRevenueCell, hr]; decide
  · simp only [fsEbitdaCell, he]; decide

/-- C2 witness: the rendering theorem applied to a statement with every
numeric field absent. -/
theorem missing_value_rendering_witness :
    ((mkStmt 0 2020 none).revenue = none)
    ∧ (invSummaryEbitdaMarginCell (some (mkStmt 0 2020 none)) = "N/A"
      ∧ invSummaryRevenueCell (some (mkStmt 0 2020 none)) = "N/A"
      ∧ kmRevenueCell (mkStmt 0 2020 none) = "$0"
      ∧ kmEbitdaCell (mkStmt 0 2020 none) = "$0"
      ∧ kmGrossMarginCell (mkStmt 0 2020 none) = "0.0%"
      ∧ kmEpsCell (mkStmt 0 2020 none) = "$0.00"
      ∧ fsRevenueCell (mkStmt 0 2020 none) = "0"
      ∧ fsEbitdaCell (mkStmt 0 2020 none) = "0") :=
  ⟨rfl, missing_value_rendering (mkStmt 0 2020 none) rfl rfl rfl rfl⟩

/-! ## Claim C3 — revenue-growth computation -/

/-- The pair loop of `calculateRevenueGrowth` emits one entry per
consecutive pair when every statement's revenue is present and
positive. -/
theorem growthPairs_length : ∀ l : List Stmt,
    (∀ s ∈ l, ∃ p, s.revenue = some p ∧ 0 < p) →
    (growthPairs l).length = l.length - 1
  | [], _ => rfl
  | [_], _ => rfl
  | a :: b :: rest, h => by
    obtain ⟨p, hp, hpos⟩ := h a (by simp)
    have ih := growthPairs_length (b :: rest) (fun s hs => h s (by simp [hs]))
    have hstep : growthPairs (a :: b :: rest)
        = ⟨b.calendarYear, b.revenue.map fun c => roundTo1 ((c - p) / p * 100)⟩
            :: growthPairs (b :: rest) := by
      simp [growthPairs, hp, hpos]
    rw [hstep, List.length_cons, ih]
    simp only [List.length_cons]
    omega

/-- The pair loop of `processRevenueData` always emits one entry per
consecutive pair. -/
theorem pairGrowthRates_length : ∀ l : List Stmt,
    (pairGrowthRates l).length = l.length - 1
  | [] => rfl
  | [_] => rfl
  | _ :: b :: rest => by
    have ih := pairGrowthRates_length (b :: rest)
    simp only [pairGrowthRates, List.length_cons] at *
    omega

/-- C3 (counterexample): with a zero first-year revenue the growth list
does not have `|S| - 1` entries — the pair is skipped entirely. -/
theorem revenue_growth_skips_nonpositive :
    (calculateRevenueGrowth
        [mkStmt 0 2020 (some 0), mkStmt 1 2021 (some 100)]).length
      ≠ [mkStmt 0 2020 (some 0), mkStmt 1 2021 (some 100)].length - 1 := by
  decide

/-- C3 (amended): `calculateRevenueGrowth` sorts ascending by date and
emits one one-decimal-rounded growth entry per consecutive pair with
positive prior revenue — so exactly `|S| - 1` entries when every revenue
is present and positive, the first entry labelled with the second-
earliest year; the explicit first-year no-data marker (and the unrounded
values) live in `processRevenueData`, whose growth list starts with
`null` and has one entry per statement. -/
theorem revenue_growth_pipeline (S : List Stmt)
    (hpos : ∀ s ∈ S, ∃ p, s.revenue = some p ∧ 0 < p) :
    (calculateRevenueGrowth S).length = S.length - 1
    ∧ List.Sorted stmtDateLe (sortStatementsByDate S)
    ∧ (∀ (a b : Stmt) (rest : List Stmt), sortStatementsByDate S = a :: b :: rest →
        ∃ p c, a.revenue = some p ∧ b.revenue = some c ∧
          (calculateRevenueGrowth S).head? =
            some ⟨b.calendarYear, some (roundTo1 ((c - p) / p * 100))⟩)
    ∧ (S ≠ [] → (processRevenueData S).growthRates.head? = some none
        ∧ (processRevenueData S).growthRates.length = S.length) := by
  have hperm : List.Perm (sortStatementsByDate S) S := List.perm_insertionSort _ _
  have hpos' : ∀ s ∈ sortStatementsByDate S, ∃ p, s.revenue = some p ∧ 0 < p :=
    fun s hs => hpos s (hperm.mem_iff.mp hs)
  refine ⟨?_, ?_, ?_, ?_⟩
  · rw [calculateRevenueGrowth, growthPairs_length _ hpos', hperm.length_eq]
  · exact List.sorted_insertionSort _ _
  · intro a b rest hsort
    obtain ⟨p, hp, hppos⟩ := hpos' a (by rw [hsort]; simp)
    obtain ⟨c, hc, _⟩ := hpos' b (by rw [hsort]; simp)
    refine ⟨p, c, hp, hc, ?_⟩
    rw [calculateRevenueGrowth, hsort]
    simp [growthPairs, hp, if_pos hppos, hc]
  · intro hne
    constructor
    · rfl
    · have hlen : (List.insertionSort stmtYearLe S).length = S.length :=
        List.length_insertionSort _ _
      have : S.length ≠ 0 := fun h => hne (List.length_eq_zero.mp h)
      simp only [processRevenueData, List.length_cons,
        pairGrowthRates_length, hlen]
      omega

/-- C3 witness: the pipeline theorem applied to a two-statement series
with positive revenues. -/
theorem revenue_growth_pipeline_witness :
    ((calculateRevenueGrowth
        [mkStmt 0 2020 (some 100), mkStmt 1 2021 (some 110)]).length
      = [mkStmt 0 2020 (some 100), mkStmt 1 2021 (some 110)].length - 1)
    ∧ (calculateRevenueGrowth
        [mkStmt 0 2020 (some 100), mkStmt 1 2021 (some 110)]
      = [⟨2021, some 10⟩]) := by
  have h := revenue_growth_pipeline
    [mkStmt 0 2020 (some 100), mkStmt 1 2021 (some 110)]
    (by
      intro s hs
      rcases List.mem_cons.mp hs with rfl | hs'
      · exact ⟨100, rfl, by norm_num⟩
      · rcases List.mem_cons.mp hs' with rfl | hs''
        · exact ⟨110, rfl, by norm_num⟩
        · simp at hs'')
  exact ⟨h.1, by decide⟩

/-! ## Claim C4 — secondary-provider fallback policy -/

/-- The Yahoo tail always marks the fallback as attempted. -/
theorem yahooTail_tried (y : Except String CompanyBundle) :
    (yahooTail y).triedYahoo = true := by
  cases y with
  | ok d => by_cases h : d.profile.isSome <;> simp [yahooTail, h]
  | error e => rfl

/-- C4 (counterexample): a `NOT_FOUND` from the primary provider — the
symbol simply being invalid there — *does* trigger the secondary (Yahoo)
provider, and its result is accepted. -/
theorem notFound_triggers_fallback :
    companyDataHandler true (.failure .NOT_FOUND)
        (.ok ⟨some sampleProfile, []⟩)
      = ⟨.okYahoo ⟨some sampleProfile, []⟩, true⟩ := by
  rfl

/-- C4 (amended): with an API key configured, the secondary (Yahoo)
provider is attempted exactly when the primary does not return a bundle
with a profile and the failure is not an `AUTH_ERROR` — so on rate-limit,
network and timeout errors, but also on `NOT_FOUND`, `FORBIDDEN` and
generic API errors; without an API key it is attempted always.  A
rate-limited primary with a valid-profile secondary result succeeds via
Yahoo even with no statement data, and `fmpRequest` classifies 429 as
`RATE_LIMIT`, aborts as `TIMEOUT`, connection failures as
`NETWORK_ERROR` and 401 as `AUTH_ERROR`. -/
theorem fallback_provider_policy :
    (∀ (fmp : FetchOutcome) (yahoo : Except String CompanyBundle),
        (companyDataHandler true fmp yahoo).triedYahoo = true ↔
          ((∃ c, fmp = .failure c ∧ c ≠ ApiCode.AUTH_ERROR)
            ∨ (∃ d, fmp = .success d ∧ d.profile = none)))
    ∧ (∀ (fmp : FetchOutcome) (yahoo : Except String CompanyBundle),
        (companyDataHandler false fmp yahoo).triedYahoo = true)
    ∧ (∀ d : CompanyBundle, d.profile.isSome →
        companyDataHandler true (.failure .RATE_LIMIT) (.ok d)
          = ⟨.okYahoo d, true⟩)
    ∧ fmpRequestFailure false (.status 429) = .error .RATE_LIMIT
    ∧ fmpRequestFailure false .timeoutAborted = .error .TIMEOUT
    ∧ fmpRequestFailure false .networkFailure = .error .NETWORK_ERROR
    ∧ fmpRequestFailure false (.status 401) = .error .AUTH_ERROR := by
  refine ⟨?_, ?_, ?_, rfl, rfl, rfl, rfl⟩
  · intro fmp yahoo
    cases fmp with
    | success d =>
      cases hd : d.profile with
      | some pr => simp [companyDataHandler, hd]
      | none => simp [companyDataHandler, hd, yahooTail_tried]
    | failure c =>
      by_cases hc : c = ApiCode.AUTH_ERROR
      · subst hc; simp [companyDataHandler]
      · simp [companyDataHandler, hc, yahooTail_tried]
  · intro fmp yahoo
    simp [companyDataHandler, yahooTail_tried]
  · intro d hd
    simp [companyDataHandler, yahooTail, hd]

/-- C4 witness: a rate-limited primary falling back to a Yahoo bundle
with a profile but no statements. -/
theorem fallback_provider_policy_witness :
    ((⟨some sampleProfile, []⟩ : CompanyBundle).profile.isSome = true)
    ∧ companyDataHandler true (.failure .RATE_LIMIT)
        (.ok ⟨some sampleProfile, []⟩)
      = ⟨.okYahoo ⟨some sampleProfile, []⟩, true⟩ :=
  ⟨rfl, fallback_provider_policy.2.2.1 ⟨some sampleProfile, []⟩ rfl⟩

/-! ## Claim C6 — build failure semantics -/

/-- The slide loop fails with the first failing slide's wrapped error. -/
theorem runFixedSlides_fail (so : SlideName → Option String) :
    ∀ (l : List SlideName) (n : SlideName) (msg : String),
      firstFailingSlide so l = some (n, msg) →
      runFixedSlides so l = .error (slideFailMsg n msg) := by
  intro l
  induction l with
  | nil => intro n msg h; simp [firstFailingSlide] at h
  | cons a rest ih =>
    intro n msg h
    cases ha : so a with
    | some m =>
      simp only [firstFailingSlide, ha, Option.some.injEq, Prod.mk.injEq] at h
      obtain ⟨rfl, rfl⟩ := h
      simp [runFixedSlides, ha]
    | none =>
      simp only [firstFailingSlide, ha] at h
      simp [runFixedSlides, ha, ih n msg h, Except.map]

/-- The slide loop succeeds when no builder throws. -/
theorem runFixedSlides_ok (so : SlideName → Option String)
    (hso : ∀ n, so n = none) :
    ∀ l : List SlideName, runFixedSlides so l = .ok (l.map .fixed) := by
  intro l
  induction l with
  | nil => rfl
  | cons a rest ih => simp [runFixedSlides, hso a, ih, Except.map]

/-- The chart phase succeeds when no chart-slide addition throws. -/
theorem runChartSlides_ok (co : ChartType → Option String)
    (hco : ∀ t, co t = none) :
    ∀ l : List ChartExportResult, runChartSlides co l = .ok (l.map .chart) := by
  intro l
  induction l with
  | nil => rfl
  | cons c rest ih => simp [runChartSlides, hco c.type, ih, Except.map]

/-- C6 (counterexample): a chart-slide failure is fatal but its wrapped
error does not identify which chart slide failed — a price-chart failure
and a market-share-chart failure produce the identical error. -/
theorem chart_failure_not_named :
    buildE (fun _ => none)
        (fun t => if t = ChartType.pricePerformance then some "boom" else none)
        fullCharts none
      = .error "Failed on chart slide: boom"
    ∧ buildE (fun _ => none)
        (fun t => if t = ChartType.marketShare then some "boom" else none)
        fullCharts none
      = .error "Failed on chart slide: boom"
    ∧ (fun t => if t = ChartType.pricePerformance then some "boom" else none)
        ChartType.pricePerformance
      ≠ (fun t => if t = ChartType.marketShare then some "boom" else none)
        ChartType.pricePerformance := by
  refine ⟨rfl, rfl, by decide⟩

/-- C6 (amended): a failure in any of the thirteen named slide builders
aborts the whole build with a wrapped error naming that slide and no
partial deck; with no failures the full deck is returned; a
serialization failure is fatal and reported as a distinct error that
never coincides with a named-slide error (a chart-slide failure is
likewise fatal, but its error does not identify which chart slide). -/
theorem deck_failure_semantics :
    (∀ (so : SlideName → Option String) (co : ChartType → Option String)
       (charts : List ChartExportResult) (w : Option String)
       (n : SlideName) (msg : String),
      firstFailingSlide so slideOrder = some (n, msg) →
      buildE so co charts w = .error (slideFailMsg n msg))
    ∧ (∀ (so : SlideName → Option String) (charts : List ChartExportResult)
        (msg : String), (∀ n, so n = none) →
        buildE so (fun _ => none) charts (some msg) = .error (writeFailMsg msg))
    ∧ (∀ charts : List ChartExportResult,
        buildE (fun _ => none) (fun _ => none) charts none = .ok (buildSlides charts))
    ∧ (∀ (msg : String) (n : SlideName) (msg' : String),
        writeFailMsg msg ≠ slideFailMsg n msg') := by
  refine ⟨?_, ?_, ?_, ?_⟩
  · intro so co charts w n msg h
    have hrun := runFixedSlides_fail so slideOrder n msg h
    simp [buildE, hrun, Bind.bind, Except.bind]
  · intro so charts msg hso
    simp [buildE, runFixedSlides_ok so hso, runChartSlides_ok _ (fun _ => rfl),
      Bind.bind, Except.bind]
  · intro charts
    simp [buildE, runFixedSlides_ok _ (fun _ => rfl),
      runChartSlides_ok _ (fun _ => rfl), Bind.bind, Except.bind, buildSlides]
  · intro msg n msg' h
    have hd : (writeFailMsg msg).data = (slideFailMsg n msg').data := by rw [h]
    have e1 : ((writeFailMsg msg).data).get? 7 = some 'g' := by
      rw [writeFailMsg, String.data_append,
        List.get?_append (by decide)]
      decide
    have e2 : ((slideFailMsg n msg').data).get? 7 = some 'o' := by
      rw [slideFailMsg, String.data_append, String.data_append,
        String.data_append]
      have l17 : ("Failed on slide \"".data).length = 17 := by decide
      rw [List.get?_append (by
        simp only [List.length_append, l17]; omega)]
      rw [List.get?_append (by
        simp only [List.length_append, l17]; omega)]
      rw [List.get?_append (by omega)]
      decide
    rw [hd, e2] at e1
    simp at e1

/-- C6 witness: the failure-semantics theorem applied to a build whose
cover-slide builder throws. -/
theorem deck_failure_semantics_witness :
    (firstFailingSlide
        (fun n => if n = SlideName.cover then some "boom" else none) slideOrder
      = some (SlideName.cover, "boom"))
    ∧ buildE (fun n => if n = SlideName.cover then some "boom" else none)
        (fun _ => none) [] none
      = .error (slideFailMsg SlideName.cover "boom") :=
  ⟨by decide,
   deck_failure_semantics.1 _ (fun _ => none) [] none SlideName.cover "boom"
     (by decide)⟩

/-! ## Claim C7 — price processing -/

/-- C7 (counterexample): `processPriceData` does not deduplicate — a
duplicated price point is retained twice, so the result differs from the
spec-modelled deduplicating variant on a duplicated input. -/
theorem processPriceData_no_dedup :
    processPriceData [⟨0, 50⟩, ⟨0, 50⟩] 250
      ≠ processPriceDataDedupSpec [⟨0, 50⟩, ⟨0, 50⟩] 250 := by
  decide

/-- C7 (amended): `processPriceData` sorts ascending by date (without
deduplicating) and samples by a fixed stride that always retains the
first point; whenever the earliest point's close is nonzero, the first
normalized value is exactly 100 (a zero close would fall back to the
divisor 1 instead), and the retained dates are ascending. -/
theorem price_normalization (P : List PricePoint) (mp : ℕ) (pt : PricePoint)
    (h : (sortPricesByDate P).head? = some pt) (hc : pt.close ≠ 0) :
    (processPriceData P mp).normalizedPrices.head? = some 100
    ∧ List.Sorted (· ≤ ·) (processPriceData P mp).labels := by
  constructor
  · cases hs : sortPricesByDate P with
    | nil => rw [hs] at h; simp at h
    | cons a tail =>
      rw [hs] at h
      simp only [List.head?_cons, Option.some.injEq] at h
      subst h
      simp only [processPriceData, hs, List.enum_cons, List.filter_cons]
      simp only [Nat.zero_mod, beq_self_eq_true, if_true, List.map_cons,
        List.head?_cons, Option.some.injEq]
      rw [if_neg hc, div_self hc, one_mul]
  · have hsorted : List.Sorted priceDateLe (sortPricesByDate P) :=
      List.sorted_insertionSort _ _
    have hsub : List.Sublist
        (((sortPricesByDate P).enum.filter
          (fun ie => ie.1 % (max 1 ((sortPricesByDate P).length / mp)) == 0)).map
            Prod.snd)
        (sortPricesByDate P) := by
      have h1 := List.filter_sublist
        (p := fun ie : ℕ × PricePoint =>
          ie.1 % (max 1 ((sortPricesByDate P).length / mp)) == 0)
        ((sortPricesByDate P).enum)
      have h2 := h1.map Prod.snd
      rwa [List.enum_map_snd] at h2
    have hpair := List.Pairwise.sublist hsub hsorted
    simp only [processPriceData]
    exact List.pairwise_map.mpr hpair

/-- C7 witness: the normalization theorem applied to a two-point series
(given unsorted, with a nonzero earliest close). -/
theorem price_normalization_witness :
    ((sortPricesByDate [⟨5, 10⟩, ⟨3, 4⟩]).head? = some ⟨3, 4⟩)
    ∧ ((3, (4 : ℚ)).2 ≠ 0)
    ∧ ((processPriceData [⟨5, 10⟩, ⟨3, 4⟩] 250).normalizedPrices.head? = some 100
       ∧ List.Sorted (· ≤ ·) (processPriceData [⟨5, 10⟩, ⟨3, 4⟩] 250).labels) :=
  ⟨by decide, by norm_num,
   price_normalization [⟨5, 10⟩, ⟨3, 4⟩] 250 ⟨3, 4⟩ (by decide) (by norm_num)⟩

/-! ## Claim C8 — user-editable slides -/

/-- C8 (counterexample): the valuation and risks & mitigants slides are
identical whether their free-text form fields are filled in or empty —
the user-supplied text never reaches the slide. -/
theorem valuation_and_risks_ignore_user_text :
    addValuation none none (setValuation sampleForm "MY CUSTOM DCF ANALYSIS TEXT")
      = addValuation none none (setValuation sampleForm "")
    ∧ addRisksAndMitigants (setRisks sampleForm "MY CUSTOM RISK TEXT")
      = addRisksAndMitigants (setRisks sampleForm "") :=
  ⟨rfl, rfl⟩

/-- C8 (amended): only the investment-thesis slide consumes its
free-text field — empty gives the structured placeholder, non-empty
gives the *first line* of the user's text; the valuation and risks
slides always show their placeholder template, invariant under the
`valuation` and `risksAndMitigants` fields; all three slides carry the
`ACTION REQUIRED` badge and a `USER ACTION REQUIRED` speaker note
unconditionally, so they can be located programmatically. -/
theorem user_editable_slides (profile : Option ProfileT)
    (ratios : Option RatiosT) (fd : FormDataT)
    (hempty : fd.investmentThesis = "") :
    (addInvestmentThesis profile fd).coreThesis =
      "We recommend " ++ ratingUpper fd.rating ++ " on "
        ++ profileNameOr profile "the company" ++ " based on [YOUR THESIS HERE]"
    ∧ (∀ t : String, t ≠ "" →
        (addInvestmentThesis profile (setThesis fd t)).coreThesis
          = (t.splitOn "\n").headD "")
    ∧ (addInvestmentThesis profile fd).notes
        = "USER ACTION REQUIRED: Replace the placeholder text with your investment thesis. Include your core thesis, catalysts, and supporting evidence."
    ∧ (addValuation profile ratios fd).notes
        = "USER ACTION REQUIRED: Replace placeholder text with your valuation analysis. Include DCF assumptions, comparable multiples, and target price derivation."
    ∧ (addRisksAndMitigants fd).notes
        = "USER ACTION REQUIRED: Replace placeholder text with specific risks to your investment thesis and how they can be mitigated."
    ∧ (addInvestmentThesis profile fd).badge = "ACTION REQUIRED"
    ∧ (addValuation profile ratios fd).badge = "ACTION REQUIRED"
    ∧ (addRisksAndMitigants fd).badge = "ACTION REQUIRED"
    ∧ (∀ v, addValuation profile ratios (setValuation fd v)
        = addValuation profile ratios fd)
    ∧ (∀ v, addRisksAndMitigants (setRisks fd v) = addRisksAndMitigants fd) := by
  refine ⟨?_, ?_, rfl, rfl, rfl, rfl, rfl, rfl, fun v => rfl, fun v => rfl⟩
  · simp [addInvestmentThesis, hempty]
  · intro t ht
    simp [addInvestmentThesis, setThesis, ht]

/-- C8 witness: the user-editable-slides theorem applied to an
empty-thesis form. -/
theorem user_editable_slides_witness :
    (sampleForm.investmentThesis = "")
    ∧ (addInvestmentThesis none sampleForm).coreThesis =
        "We recommend " ++ ratingUpper sampleForm.rating ++ " on "
          ++ profileNameOr none "the company" ++ " based on [YOUR THESIS HERE]" :=
  ⟨rfl, (user_editable_slides none none sampleForm rfl).1⟩

/-! ## Claim C9 — market-share percentages -/

/-- Every peer kept by `calculateMarketShare` has positive revenue. -/
theorem keptPeers_pos (peers : List PeerData) (prevs : String → Option ℚ) :
    ∀ e ∈ keptPeers peers prevs, 0 < e.revenue := by
  intro e he
  simp only [keptPeers, List.mem_filterMap] at he
  obtain ⟨peer, _, hpe⟩ := he
  cases hrev : prevs peer.symbol with
  | none => simp [hrev] at hpe
  | some r =>
    simp only [hrev] at hpe
    by_cases hr : 0 < r
    · rw [if_pos hr] at hpe
      obtain rfl := Option.some.inj hpe
      exact hr
    · rw [if_neg hr] at hpe; simp at hpe

/-- C9 (counterexample): with a negative subject revenue exactly
cancelling the one kept peer, the top-6 total is zero and the
percentages do not sum to 100 (in JS they are `±Infinity` and the sum is
`NaN`; in this embedding division by zero gives 0). -/
theorem market_share_zero_total :
    (calculateMarketShare (-100) "A" [⟨"P", "Peer", 1, none, none⟩]
        (fun s => if s = "P" then some 100 else none)).percentages.sum ≠ 100 := by
  decide

/-- C9 (amended): `calculateMarketShare` ranks the subject and the kept
peers by revenue descending and keeps at most the top 6, each percentage
being that entity's revenue over the top-6 total; whenever the subject's
revenue is nonnegative and some entity has positive revenue, the top-6
total is positive and the percentages sum to exactly 100. -/
theorem market_share_percentages (cr : ℚ) (cn : String)
    (peers : List PeerData) (prevs : String → Option ℚ) (hnn : 0 ≤ cr)
    (hsome : 0 < cr ∨ keptPeers peers prevs ≠ []) :
    (calculateMarketShare cr cn peers prevs).percentages.sum = 100
    ∧ (calculateMarketShare cr cn peers prevs).values.length ≤ 6
    ∧ List.Sorted (fun a b : ℚ => b ≤ a)
        (calculateMarketShare cr cn peers prevs).values
    ∧ (calculateMarketShare cr cn peers prevs).percentages
        = (calculateMarketShare cr cn peers prevs).values.map
            (fun r => r / (calculateMarketShare cr cn peers prevs).values.sum * 100) := by
  have hnonneg : ∀ e ∈ (⟨cn, cr⟩ :: keptPeers peers prevs : List MSEntry),
      0 ≤ e.revenue := by
    intro e he
    rcases List.mem_cons.mp he with rfl | he'
    · exact hnn
    · exact le_of_lt (keptPeers_pos peers prevs e he')
  have hex : ∃ e ∈ (⟨cn, cr⟩ :: keptPeers peers prevs : List MSEntry),
      0 < e.revenue := by
    rcases hsome with hpos | hne
    · exact ⟨⟨cn, cr⟩, by simp, hpos⟩
    · obtain ⟨e, he⟩ := List.exists_mem_of_ne_nil _ hne
      exact ⟨e, List.mem_cons_of_mem _ he, keptPeers_pos peers prevs e he⟩
  have hperm : List.Perm
      (List.insertionSort msRevenueGe (⟨cn, cr⟩ :: keptPeers peers prevs))
      (⟨cn, cr⟩ :: keptPeers peers prevs) := List.perm_insertionSort _ _
  have hsorted : List.Sorted msRevenueGe
      (List.insertionSort msRevenueGe (⟨cn, cr⟩ :: keptPeers peers prevs)) :=
    List.sorted_insertionSort _ _
  cases hs : List.insertionSort msRevenueGe (⟨cn, cr⟩ :: keptPeers peers prevs) with
  | nil =>
    have := hperm.length_eq
    rw [hs] at this
    simp at this
  | cons hd tl =>
    rw [hs] at hperm hsorted
    have hhdpos : 0 < hd.revenue := by
      obtain ⟨e, hemem, hepos⟩ := hex
      have : e ∈ hd :: tl := hperm.symm.subset hemem
      rcases List.mem_cons.mp this with rfl | het
      · exact hepos
      · exact lt_of_lt_of_le hepos (List.rel_of_sorted_cons hsorted e het)
    have htlnn : ∀ e ∈ tl.take 5, 0 ≤ e.revenue := fun e he =>
      hnonneg e (hperm.subset (List.mem_cons_of_mem _ (List.mem_of_mem_take he)))
    have hvals : (calculateMarketShare cr cn peers prevs).values
        = hd.revenue :: (tl.take 5).map (·.revenue) := by
      show ((List.insertionSort msRevenueGe
          (⟨cn, cr⟩ :: keptPeers peers prevs)).take 6).map (·.revenue) = _
      rw [hs, List.take_succ_cons, List.map_cons]
    have htotal : (calculateMarketShare cr cn peers prevs).values.sum
        = hd.revenue + ((tl.take 5).map (·.revenue)).sum := by
      rw [hvals, List.sum_cons]
    have htotal_pos : 0 < (calculateMarketShare cr cn peers prevs).values.sum := by
      rw [htotal]
      have : 0 ≤ ((tl.take 5).map (·.revenue)).sum := by
        apply List.sum_nonneg
        intro x hx
        obtain ⟨e, he, rfl⟩ := List.mem_map.mp hx
        exact htlnn e he
      linarith
    have htne : (calculateMarketShare cr cn peers prevs).values.sum ≠ 0 :=
      ne_of_gt htotal_pos
    have hpercs : (calculateMarketShare cr cn peers prevs).percentages
        = (calculateMarketShare cr cn peers prevs).values.map
            (fun r => r / (calculateMarketShare cr cn peers prevs).values.sum * 100) := by
      rw [show (calculateMarketShare cr cn peers prevs).values
          = ((List.insertionSort msRevenueGe
              (⟨cn, cr⟩ :: keptPeers peers prevs)).take 6).map (·.revenue)
        from rfl, List.map_map]
      rfl
    refine ⟨?_, ?_, ?_, hpercs⟩
    · rw [hpercs]
      have hstep : ∀ r : ℚ,
          r / (calculateMarketShare cr cn peers prevs).values.sum * 100
            = r * (100 / (calculateMarketShare cr cn peers prevs).values.sum) :=
        fun r => by rw [div_mul_eq_mul_div, mul_div_assoc]
      simp only [hstep]
      rw [List.sum_map_mul_right, List.map_id', mul_comm,
        div_mul_cancel₀ _ htne]
    · show (((List.insertionSort msRevenueGe
          (⟨cn, cr⟩ :: keptPeers peers prevs)).take 6).map (·.revenue)).length ≤ 6
      rw [List.length_map]
      exact List.length_take_le _ _
    · show List.Sorted (fun a b : ℚ => b ≤ a)
        ((((List.insertionSort msRevenueGe
          (⟨cn, cr⟩ :: keptPeers peers prevs)).take 6)).map (·.revenue))
      rw [List.Sorted, List.pairwise_map]
      refine List.Pairwise.sublist (List.take_sublist _ _) ?_
      rw [hs]
      exact hsorted

/-- C9 witness: the percentage-sum theorem applied to a lone subject
with positive revenue. -/
theorem market_share_percentages_witness :
    ((0 : ℚ) ≤ 100)
    ∧ ((calculateMarketShare 100 "A" [] (fun _ => none)).percentages.sum = 100
       ∧ (calculateMarketShare 100 "A" [] (fun _ => none)).values.length ≤ 6
       ∧ List.Sorted (fun a b : ℚ => b ≤ a)
           (calculateMarketShare 100 "A" [] (fun _ => none)).values
       ∧ (calculateMarketShare 100 "A" [] (fun _ => none)).percentages
           = (calculateMarketShare 100 "A" [] (fun _ => none)).values.map
               (fun r => r / (calculateMarketShare 100 "A" [] (fun _ => none)).values.sum * 100)) :=
  ⟨by norm_num,
   market_share_percentages 100 "A" [] (fun _ => none) (by norm_num)
     (Or.inl (by norm_num))⟩

/-! ## Claim C10 — `formatLargeNumber` on negative values -/

/-- Every `digitChar` is a decimal digit. -/
theorem digitChar_isDigit (n : ℕ) : (digitChar n).isDigit = true := by
  have h : n % 10 < 10 := Nat.mod_lt _ (by norm_num)
  unfold digitChar
  revert h
  generalize n % 10 = m
  intro h
  interval_cases m <;> decide

/-- Grouping preserves the least-significant digit. -/
theorem group3Rev_head? (l : List Char) : (group3Rev l).head? = l.head? := by
  match l with
  | [] => rfl
  | [_] => rfl
  | [_, _] => rfl
  | [_, _, _] => rfl
  | _ :: _ :: _ :: _ :: _ => rfl

/-- The least-significant digit of a nonzero natural number. -/
theorem natDigitsRev_head? (n : ℕ) (hn : n ≠ 0) :
    (natDigitsRev n).head? = some (digitChar (n % 10)) := by
  unfold natDigitsRev
  cases n with
  | zero => exact absurd rfl hn
  | succ k =>
    unfold natDigitsRevAux
    simp

/-- The grouped rendering of a natural number ends in a decimal digit. -/
theorem natGroupedChars_getLast? (i : ℕ) :
    ∃ c, (natGroupedChars i).getLast? = some c ∧ c.isDigit = true := by
  by_cases hi : i = 0
  · subst hi; exact ⟨'0', rfl, rfl⟩
  · refine ⟨digitChar (i % 10), ?_, digitChar_isDigit _⟩
    unfold natGroupedChars
    rw [if_neg hi, List.getLast?_reverse, group3Rev_head?,
      natDigitsRev_head? i hi]

/-- The localized rendering of any rational ends in a decimal digit. -/
theorem jsLocaleChars_getLast?_digit (v : ℚ) :
    ∃ c, (jsLocaleChars v).getLast? = some c ∧ c.isDigit = true := by
  have hshape : jsLocaleChars v
      = (if v < 0 then ['-'] else [])
        ++ natGroupedChars (roundHalfUpNat (v * 1000) / 1000)
        ++ fracChars3 (roundHalfUpNat (v * 1000) % 1000) := rfl
  rw [hshape]
  generalize roundHalfUpNat (v * 1000) / 1000 = i
  generalize roundHalfUpNat (v * 1000) % 1000 = f
  by_cases h1 : f % 10 ≠ 0
  · refine ⟨digitChar (f % 10), ?_, digitChar_isDigit _⟩
    unfold fracChars3
    rw [if_pos h1, List.getLast?_append_of_ne_nil _ (by simp)]
    rfl
  · by_cases h2 : f / 10 % 10 ≠ 0
    · refine ⟨digitChar (f / 10 % 10), ?_, digitChar_isDigit _⟩
      unfold fracChars3
      rw [if_neg h1, if_pos h2, List.getLast?_append_of_ne_nil _ (by simp)]
      rfl
    · by_cases h3 : f / 100 ≠ 0
      · refine ⟨digitChar (f / 100), ?_, digitChar_isDigit _⟩
        unfold fracChars3
        rw [if_neg h1, if_neg h2, if_pos h3,
          List.getLast?_append_of_ne_nil _ (by simp)]
        rfl
      · obtain ⟨c, hc, hcd⟩ := natGroupedChars_getLast? i
        refine ⟨c, ?_, hcd⟩
        unfold fracChars3
        rw [if_neg h1, if_neg h2, if_neg h3, List.append_nil,
          List.getLast?_append_of_ne_nil _ (by
            intro hnil
            rw [hnil] at hc
            simp at hc)]
        exact hc

/-- C10: a negative value always falls through the `T`/`B`/`M` suffix
thresholds (which apply only from `1e6` up) to the plain localized
dollar string, whose final character is a decimal digit — so no
magnitude suffix is ever attached to a negative value. -/
theorem formatLargeNumber_negative_plain (v : ℚ) (hv : v < 0) :
    formatLargeNumber (some v) = "$" ++ jsLocaleString v
    ∧ lastCharDigit (formatLargeNumber (some v)) = true
    ∧ (∀ w : ℚ, w < 1000000 → formatLargeNumber (some w) = "$" ++ jsLocaleString w) := by
  have hplain : ∀ w : ℚ, w < 1000000 →
      formatLargeNumber (some w) = "$" ++ jsLocaleString w := by
    intro w hw
    simp only [formatLargeNumber]
    rw [if_neg (not_le.mpr (show w < 1000000000000 by linarith)),
      if_neg (not_le.mpr (show w < 1000000000 by linarith)),
      if_neg (not_le.mpr (show w < 1000000 by linarith))]
  refine ⟨hplain v (by linarith), ?_, hplain⟩
  rw [hplain v (by linarith)]
  obtain ⟨c, hc, hcd⟩ := jsLocaleChars_getLast?_digit v
  have hdata : ("$" ++ jsLocaleString v).data = "$".data ++ jsLocaleChars v := by
    rw [String.data_append]; rfl
  have hnil : jsLocaleChars v ≠ [] := by
    intro hn; rw [hn] at hc; simp at hc
  unfold lastCharDigit
  rw [hdata, List.getLast?_append_of_ne_nil _ hnil, hc]
  exact hcd

/-- C10 witness: the negative-value theorem at `v = -2.5e9`, whose
rendering is the plain `"$-2,500,000,000"` with no suffix. -/
theorem formatLargeNumber_negative_witness :
    ((-2500000000 : ℚ) < 0)
    ∧ formatLargeNumber (some (-2500000000)) = "$-2,500,000,000"
    ∧ (formatLargeNumber (some (-2500000000))
          = "$" ++ jsLocaleString (-2500000000)
       ∧ lastCharDigit (formatLargeNumber (some (-2500000000))) = true
       ∧ (∀ w : ℚ, w < 1000000 →
            formatLargeNumber (some w) = "$" ++ jsLocaleString w)) :=
  ⟨by norm_num, by decide,
   formatLargeNumber_negative_plain (-2500000000) (by norm_num)⟩

end QuickBuy
